import Mathlib

/-
  Verification of the CarrierHub front-end API-client subsystem:
  a shallow embedding of the client cache (`src/lib/cache.ts`),
  the HTTP request engine (`ApiClient.request` in `src/lib/api.ts`)
  and the payment bridge (`src/lib/payment-utils.ts`),
  together with theorems about their behaviour.
-/

/-- Model of a JavaScript/JSON runtime value, as produced by `response.json()`
and stored in the client cache.  `vNull` also stands for `undefined` where a
field is simply absent (absence is modelled by `Option` at use sites). -/
inductive JsVal where
  | vNull : JsVal
  | vBool (b : Bool) : JsVal
  | vNum (n : Int) : JsVal
  | vStr (s : String) : JsVal
  | vArr (elems : List JsVal) : JsVal
  | vObj (fields : List (String × JsVal)) : JsVal

/-- JavaScript truthiness: `null`, `false`, `0` and `""` are falsy; every
array and object is truthy. -/
def truthy : JsVal → Bool
  | .vNull => false
  | .vBool b => b
  | .vNum n => n != 0
  | .vStr s => s != ""
  | .vArr _ => true
  | .vObj _ => true

/-- Property access `v.name` on a JSON value known not to be `null`:
field lookup on objects, `undefined` (here `none`) on every other
non-null value.  Access on `null` is NOT this function — it throws in
JavaScript and is modelled by `jsFieldEx` below. -/
def jsField : JsVal → String → Option JsVal
  | .vObj fields, name => fields.lookup name
  | _, _ => none

/-- A JavaScript exception value as inspected by catch blocks: either an
`Error` instance (with `name` and `message`) or any other thrown value. -/
inductive Thrown where
  | err (name : String) (message : String) : Thrown
  | nonError : Thrown

/-- The `TypeError` thrown by `null.name` in JavaScript. -/
def typeError (name : String) : Thrown :=
  .err "TypeError" ("Cannot read properties of null (reading '" ++ name ++ "')")

/-- Property access `v.name` with JavaScript's exception behaviour:
throws a `TypeError` when `v` is `null`, otherwise behaves as
`jsField` (field lookup on objects, `undefined` on other primitives). -/
def jsFieldEx : JsVal → String → Except Thrown (Option JsVal)
  | .vNull, name => .error (typeError name)
  | v, name => .ok (jsField v name)

/-- The JavaScript `a || d` idiom applied to a possibly-absent field `a`:
yields `a` when present and truthy, otherwise the default `d`. -/
def jsOrElse (v : Option JsVal) (d : JsVal) : JsVal :=
  match v with
  | some x => if truthy x then x else d
  | none => d

/-- `seqLeads p s` : the character sequence `p` appears at the start of `s`. -/
def seqLeads : List Char → List Char → Bool
  | [], _ => true
  | _ :: _, [] => false
  | a :: p, b :: s => a == b && seqLeads p s

/-- `seqInside p s` : the character sequence `p` appears contiguously
somewhere in `s`. -/
def seqInside : List Char → List Char → Bool
  | p, [] => seqLeads p []
  | p, b :: rest => seqLeads p (b :: rest) || seqInside p rest

/-- JavaScript `s.includes(p)` : substring containment. -/
def jsIncludes (s p : String) : Bool :=
  seqInside p.toList s.toList

/-- JavaScript `s.startsWith(p)`. -/
def jsStartsWith (s p : String) : Bool :=
  seqLeads p.toList s.toList

/-! ## Client cache (`src/lib/cache.ts`)

The cache is a `Map<string, CacheItem>`; we model it as an association
list with unique keys (the `Map` operations below preserve uniqueness,
and no theorem depends on iteration order beyond what `Map` guarantees).
`Date.now()` is passed explicitly as `now`. -/

/-- `CacheItem<T>` from `cache.ts`: stored data, write timestamp (epoch ms)
and time-to-live in milliseconds. -/
structure CacheItem where
  data : JsVal
  timestamp : Int
  ttl : Int

/-- The cache state: the underlying `Map` content. -/
abbrev Cache := List (String × CacheItem)

/-- `Map.get`: the entry currently stored under `key`, if any. -/
def cacheLookup (key : String) : Cache → Option CacheItem
  | [] => none
  | (k, v) :: rest => if k = key then some v else cacheLookup key rest

/-- `Map.set`: replace an existing entry in place, otherwise append. -/
def cacheRawSet (key : String) (item : CacheItem) : Cache → Cache
  | [] => [(key, item)]
  | (k, v) :: rest =>
      if k = key then (key, item) :: rest else (k, v) :: cacheRawSet key item rest

/-- `Map.delete`: remove the entry stored under `key`. -/
def cacheDelete (key : String) (cache : Cache) : Cache :=
  cache.filter (fun kv => kv.1 != key)

/-- `ClientCache.set(key, data, ttl)`: stores `{ data, timestamp: Date.now(), ttl }`. -/
def cacheSet (key : String) (data : JsVal) (ttl : Int) (now : Int) (cache : Cache) : Cache :=
  cacheRawSet key { data := data, timestamp := now, ttl := ttl } cache

/-- `ClientCache.get(key)`: returns `null` on a missing entry; on
`Date.now() - item.timestamp > item.ttl` deletes the entry and returns
`null`; otherwise returns the stored data.  The pair is (returned value,
cache state after the call). -/
def cacheGet (cache : Cache) (now : Int) (key : String) : Option JsVal × Cache :=
  match cacheLookup key cache with
  | none => (none, cache)
  | some item =>
      if now - item.timestamp > item.ttl then
        (none, cacheDelete key cache)
      else
        (some item.data, cache)

/-- `ClientCache.has(key)`: same expiry logic as `get`, returning a Boolean. -/
def cacheHas (cache : Cache) (now : Int) (key : String) : Bool × Cache :=
  match cacheLookup key cache with
  | none => (false, cache)
  | some item =>
      if now - item.timestamp > item.ttl then
        (false, cacheDelete key cache)
      else
        (true, cache)

/-- `ClientCache.keys()`: `Array.from(this.cache.keys())`. -/
def cacheKeys (cache : Cache) : List String :=
  cache.map (fun kv => kv.1)

/-- The `keys().forEach(key => if (pred key) delete key)` loop shared by
`invalidateCachePattern` and the booking-cache invalidation in
`ApiClient.createBooking`. -/
def deleteMatching (pred : String → Bool) (cache : Cache) : Cache :=
  (cacheKeys cache).foldl (fun c key => if pred key then cacheDelete key c else c) cache

/-- `invalidateCachePattern(pattern)` from `cache.ts`: deletes every key
`key` with `key.includes(pattern)`. -/
def invalidateCachePattern (pattern : String) (cache : Cache) : Cache :=
  deleteMatching (fun key => jsIncludes key pattern) cache

/-- Result of one `withCache` call: the resolved value, the cache state
afterwards, and whether the fetcher was invoked. -/
structure WithCacheResult where
  value : JsVal
  cache : Cache
  fetched : Bool

/-- `withCache(key, fetcher, ttl)` from `cache.ts`.  The source reads
`const cached = clientCache.get(key); if (cached) { resolve(cached); return }`
— a JavaScript truthiness test on the cached value — then awaits the
fetcher, stores its result and resolves it.  `fetch` is the value the
fetcher would resolve to if invoked; `tGet` and `tSet` are the values of
`Date.now()` at the cache read and the cache write. -/
def withCache (key : String) (fetch : JsVal) (ttl : Int) (tGet tSet : Int)
    (cache : Cache) : WithCacheResult :=
  match cacheGet cache tGet key with
  | (some v, c2) =>
      if truthy v then
        { value := v, cache := c2, fetched := false }
      else
        { value := fetch, cache := cacheSet key fetch ttl tSet c2, fetched := true }
  | (none, c2) =>
      { value := fetch, cache := cacheSet key fetch ttl tSet c2, fetched := true }

/-- `CACHE_TTL.SHORT` (2 minutes, in ms). -/
def CACHE_TTL_SHORT : Int := 2 * 60 * 1000

/-- `CACHE_TTL.LONG` (15 minutes, in ms). -/
def CACHE_TTL_LONG : Int := 15 * 60 * 1000

/-! ## HTTP request engine (`ApiClient.request`, `src/lib/api.ts`)

The retry loop of `ApiClient.request` is modelled with the transport
abstracted as a function from the attempt index (`retryCount`) to the
outcome of that `fetch` call.  Headers, token resolution and logging do
not influence the control flow modelled here. -/

/-- The outcome of one `fetch` attempt: an HTTP response whose body
decode (`response.json()`) either yields a JSON value or throws, or a
rejection of the fetch itself (network failure / abort). -/
inductive FetchOutcome where
  | response (status : Nat) (body : Except Thrown JsVal) : FetchOutcome
  | reject (t : Thrown) : FetchOutcome

/-- The uniform response envelope `ApiResponse<T>` from `api.ts`.  Fields
are `Option` because the source leaves them `undefined` on some paths;
`error` holds whatever JavaScript value `data.message || data.error || fallback`
evaluates to. -/
structure ApiResponse where
  success : Bool
  data : Option JsVal := none
  message : Option JsVal := none
  error : Option JsVal := none
  details : Option JsVal := none

/-- 4xx body decode: `await response.json().catch(() => ({ message: 'Client error' }))`. -/
def clientErrorBody : Except Thrown JsVal → JsVal
  | .ok b => b
  | .error _ => .vObj [("message", .vStr "Client error")]

/-- Final 5xx body decode: `await response.json().catch(() => ({ message: 'Server error' }))`. -/
def serverErrorBody : Except Thrown JsVal → JsVal
  | .ok b => b
  | .error _ => .vObj [("message", .vStr "Server error")]

/-- Failure envelope built from a decoded body:
`{ success: false, error: data.message || data.error || fallback, details: data.details || [] }`. -/
def failureEnvelope (body : JsVal) (fallback : String) : ApiResponse :=
  { success := false
    error := some (jsOrElse (jsField body "message") (jsOrElse (jsField body "error") (.vStr fallback)))
    details := some (jsOrElse (jsField body "details") (.vArr [])) }

/-- Success envelope: `{ success: true, data: data.data || data, message: data.message }`. -/
def successEnvelope (body : JsVal) : ApiResponse :=
  { success := true
    data := some (jsOrElse (jsField body "data") body)
    message := jsField body "message" }

/-- Building the failure envelope with JavaScript's exception behaviour:
the accesses `data.message`, `data.error` and `data.details` happen
inside the `try` block, so a body that decodes to JSON `null` throws a
`TypeError` at the first access instead of producing an envelope. -/
def failureEnvelopeEx (body : JsVal) (fallback : String) : Except Thrown ApiResponse :=
  match jsFieldEx body "message" with
  | .error th => .error th
  | .ok m =>
      match jsFieldEx body "error" with
      | .error th => .error th
      | .ok e =>
          match jsFieldEx body "details" with
          | .error th => .error th
          | .ok d =>
              .ok { success := false
                    error := some (jsOrElse m (jsOrElse e (.vStr fallback)))
                    details := some (jsOrElse d (.vArr [])) }

/-- Building the success envelope with JavaScript's exception behaviour:
`data.data` (then `data.message`) throws a `TypeError` when the 2xx body
decodes to JSON `null`, and that throw is handled by the retry loop's
catch block. -/
def successEnvelopeEx (body : JsVal) : Except Thrown ApiResponse :=
  match jsFieldEx body "data" with
  | .error th => .error th
  | .ok d =>
      match jsFieldEx body "message" with
      | .error th => .error th
      | .ok m =>
          .ok { success := true
                data := some (jsOrElse d body)
                message := m }

/-- The message computed by the catch block on the last retry, from the
thrown value: `AbortError` name, then `Failed to fetch` / `CORS` /
`NetworkError` substrings of the message, then a generic connection
error; a non-`Error` throw keeps the initial default. -/
def connectionErrorMessage : Thrown → String
  | .err name message =>
      if name = "AbortError" then
        "Request timeout - server is taking too long to respond. Please try again later."
      else if jsIncludes message "Failed to fetch" then
        "Cannot connect to server - please check your internet connection or try again later"
      else if jsIncludes message "CORS" then
        "CORS error - please contact support if this persists"
      else if jsIncludes message "NetworkError" then
        "Network error - please check your connection and try again"
      else
        "Connection error: " ++ message ++ ". Please try again later."
  | .nonError => "Network error - server may be temporarily unavailable"

/-- Envelope returned by the catch block on the last retry:
`{ success: false, error: errorMessage, details: [] }`. -/
def catchEnvelope (t : Thrown) : ApiResponse :=
  { success := false
    error := some (.vStr (connectionErrorMessage t))
    details := some (.vArr []) }

/-- Envelope after the `while` loop exits ("This should never be reached"). -/
def exhaustedEnvelope : ApiResponse :=
  { success := false
    error := some (.vStr "Maximum retry attempts exceeded. Please try again later.")
    details := some (.vArr []) }

/-- Backoff wait before a retry:
`Math.min(1000 * Math.pow(2, retryCount), 10000)` milliseconds. -/
def waitTime (retryCount : Nat) : Nat :=
  min (1000 * 2 ^ retryCount) 10000

/-- The observable outcome of one `request` call: the resolved envelope,
the number of fetch attempts issued, and the list of backoff delays slept
between consecutive attempts, in order. -/
structure ReqTrace where
  envelope : ApiResponse
  attempts : Nat
  delays : List Nat

/-- One iteration of the `while (retryCount <= maxRetries)` loop of
`ApiClient.request`, with `fuel` bounding the remaining iterations
(`request` supplies `maxRetries + 1`, enough for the whole loop, so the
fuel-exhausted branch is exactly the source's unreachable fall-through).
Branches, in source order: 2xx builds the success envelope (whose
`data.data` access throws on a JSON `null` body); 4xx builds the
client-error envelope (whose `data.message` access throws on a JSON
`null` body); any other non-ok status builds the server-error envelope
on the last retry and otherwise backs off and retries.  Every throw —
fetch rejection, body decode failure, or `TypeError` from a property
access on `null` — lands in the catch block, which returns the catch
envelope on the last retry and otherwise falls through to the backoff
of `waitTime retryCount` ms and the next iteration. -/
def requestLoop (transport : Nat → FetchOutcome) (maxRetries : Nat) :
    Nat → Nat → ReqTrace
  | _, 0 => { envelope := exhaustedEnvelope, attempts := 0, delays := [] }
  | retryCount, fuel + 1 =>
      let retryStep : ReqTrace :=
        let rest := requestLoop transport maxRetries (retryCount + 1) fuel
        { envelope := rest.envelope
          attempts := rest.attempts + 1
          delays := waitTime retryCount :: rest.delays }
      let catchStep : Thrown → ReqTrace := fun th =>
        if retryCount = maxRetries then
          { envelope := catchEnvelope th, attempts := 1, delays := [] }
        else retryStep
      match transport retryCount with
      | .response status body =>
          if 200 ≤ status ∧ status < 300 then
            match body with
            | .ok b =>
                match successEnvelopeEx b with
                | .ok env => { envelope := env, attempts := 1, delays := [] }
                | .error th => catchStep th
            | .error th => catchStep th
          else if 400 ≤ status ∧ status < 500 then
            match failureEnvelopeEx (clientErrorBody body)
                ("Request failed with status " ++ toString status) with
            | .ok env => { envelope := env, attempts := 1, delays := [] }
            | .error th => catchStep th
          else
            if retryCount = maxRetries then
              match failureEnvelopeEx (serverErrorBody body)
                  ("Server error (" ++ toString status ++ "). Please try again later.") with
              | .ok env => { envelope := env, attempts := 1, delays := [] }
              | .error th => { envelope := catchEnvelope th, attempts := 1, delays := [] }
            else retryStep
      | .reject th => catchStep th

/-- `const maxRetries = 3` in `ApiClient.request`. -/
def maxRetries : Nat := 3

/-- `ApiClient.request` for a given transport: the retry loop started at
`retryCount = 0` with the fixed retry budget. -/
def request (transport : Nat → FetchOutcome) : ReqTrace :=
  requestLoop transport maxRetries 0 (maxRetries + 1)

/-! ## API-client cache wiring (`getCategories`, `getBookings`, `createBooking`) -/

/-- `CACHE_KEYS.CATEGORIES`. -/
def CACHE_KEY_CATEGORIES : String := "categories"

/-- `CACHE_KEYS.BOOKINGS`. -/
def CACHE_KEY_BOOKINGS : String := "bookings"

/-- Encoding of a response envelope as the JavaScript object that
`this.request(...)` resolves to and `withCache` stores; optional fields
that are `undefined` are omitted, as in a JS object. -/
def envelopeToJs (e : ApiResponse) : JsVal :=
  .vObj (("success", .vBool e.success) ::
    ((e.data.map (fun v => ("data", v))).toList ++
     (e.message.map (fun v => ("message", v))).toList ++
     (e.error.map (fun v => ("error", v))).toList ++
     (e.details.map (fun v => ("details", v))).toList))

/-- `ApiClient.getCategories()`: `withCache(CACHE_KEYS.CATEGORIES, () => this.request('/categories'), CACHE_TTL.LONG)`.
`env` is the envelope the underlying request would resolve to if the
fetcher runs; `tGet`/`tSet` are the clock values at the cache read/write. -/
def getCategories (env : ApiResponse) (tGet tSet : Int) (cache : Cache) : WithCacheResult :=
  withCache CACHE_KEY_CATEGORIES (envelopeToJs env) CACHE_TTL_LONG tGet tSet cache

/-- The cache effect of `ApiClient.createBooking` once the request has
resolved to `result`: on `result.success`, delete the `'bookings'` key,
then delete every remaining key with `key.startsWith(CACHE_KEYS.BOOKINGS)`;
otherwise leave the cache untouched. -/
def createBookingInvalidate (result : ApiResponse) (cache : Cache) : Cache :=
  if result.success then
    deleteMatching (fun key => jsStartsWith key CACHE_KEY_BOOKINGS)
      (cacheDelete CACHE_KEY_BOOKINGS cache)
  else cache

/-! ## Payment bridge (`src/lib/payment-utils.ts`)

The browser world relevant to `initializeRazorpayPayment`: whether the
externally injected `window.Razorpay` constructor is present, and
counters for constructed/opened widget instances and for network calls
issued, so "no widget constructed, no network call" is observable. -/

/-- The ambient browser state seen by the payment bridge. -/
structure PaymentWorld where
  razorpayLoaded : Bool
  constructed : Nat
  opened : Nat
  networkCalls : Nat

/-- `validateRazorpaySetup()`: `if (!window.Razorpay) return { isValid: false, error: "Payment system not loaded. Please refresh the page and try again." }; return { isValid: true }`. -/
def validateRazorpaySetup (w : PaymentWorld) : Bool × Option String :=
  if !w.razorpayLoaded then
    (false, some "Payment system not loaded. Please refresh the page and try again.")
  else
    (true, none)

/-- `initializeRazorpayPayment(options)`: validates the setup, then
constructs a widget instance and opens it; `constructThrows` models
`new window.Razorpay(options)` throwing, answered by the catch block.
Returns `(success, error)` together with the world afterwards. -/
def initializeRazorpayPayment (w : PaymentWorld) (constructThrows : Bool) :
    (Bool × Option String) × PaymentWorld :=
  let v := validateRazorpaySetup w
  if v.1 = false then
    ((false, v.2), w)
  else if constructThrows then
    ((false, some "Failed to initialize payment. Please try again."), w)
  else
    ((true, none),
      { w with constructed := w.constructed + 1, opened := w.opened + 1 })

/-! ## Predicates used to state the error-string property -/

/-- A possibly-absent JSON field carries only string data: whenever it is
present and truthy, it is a string value. -/
def stringish (v : Option JsVal) : Prop :=
  ∀ x, v = some x → truthy x = true → ∃ s, x = .vStr s

/-- Every decodable body the transport ever produces has string-typed (or
absent/falsy) `message` and `error` fields — the shape the backend's
envelope contract promises. -/
def goodBodies (transport : Nat → FetchOutcome) : Prop :=
  ∀ n status b body, transport n = .response status b → b = .ok body →
    stringish (jsField body "message") ∧ stringish (jsField body "error")

/-! ## Concrete transports, caches and worlds used as witnesses -/

/-- Mock transport: HTTP 500 on the first two attempts, then HTTP 200
with a decodable JSON body. -/
def mock500x2Then200 : Nat → FetchOutcome := fun n =>
  if n = 0 then .response 500 (.ok (.vObj []))
  else if n = 1 then .response 500 (.ok (.vObj []))
  else .response 200 (.ok (.vObj [("data", .vObj [("ok", .vBool true)])]))

/-- Mock transport: HTTP 404 with a message body, on every attempt. -/
def mock404 : Nat → FetchOutcome := fun _ =>
  .response 404 (.ok (.vObj [("message", .vStr "Not found")]))

/-- Mock transport: HTTP 500 on the first two attempts, then HTTP 200
on every later attempt with a body that decodes to JSON `null`. -/
def mockNullBody200 : Nat → FetchOutcome := fun n =>
  if n = 0 then .response 500 (.ok (.vObj []))
  else if n = 1 then .response 500 (.ok (.vObj []))
  else .response 200 (.ok .vNull)

/-- Mock transport: HTTP 404 on every attempt with a body that decodes
to JSON `null`. -/
def mock404Null : Nat → FetchOutcome := fun _ =>
  .response 404 (.ok .vNull)

/-- Mock transport: HTTP 404 whose body carries a truthy non-string
`message` (the number 5). -/
def mock404NumericMessage : Nat → FetchOutcome := fun _ =>
  .response 404 (.ok (.vObj [("message", .vNum 5)]))

/-- Mock transport that always rejects with an abort, as a timed-out
fetch does. -/
def mockAlwaysAbort : Nat → FetchOutcome := fun _ =>
  .reject (.err "AbortError" "The operation was aborted")

/-- A cache holding one entry under `"k"` written at epoch-ms 0 with a
5 ms TTL. -/
def cacheK5 : Cache := [("k", { data := .vStr "v", timestamp := 0, ttl := 5 })]

/-- A cache holding one entry written at epoch-ms 5 with TTL 0. -/
def cacheKTtl0 : Cache := [("k", { data := .vStr "v", timestamp := 5, ttl := 0 })]

/-- A cache holding one entry written at epoch-ms 5 with TTL -1. -/
def cacheKTtlNeg : Cache := [("k", { data := .vStr "v", timestamp := 5, ttl := -1 })]

/-- A cache holding a bookings-list entry and the categories entry. -/
def cacheBookingsCategories : Cache :=
  [("bookings_page=1", { data := .vArr [], timestamp := 0, ttl := 120000 }),
   ("categories", { data := .vArr [], timestamp := 0, ttl := 900000 })]

/-- A successful create-booking envelope. -/
def okBookingEnvelope : ApiResponse :=
  { success := true, data := some (.vObj [("booking", .vObj [("id", .vNum 1)])]) }

/-- A failed envelope with a connectivity message. -/
def failedEnvelope : ApiResponse :=
  { success := false
    error := some (.vStr "Network error - server may be temporarily unavailable")
    details := some (.vArr []) }

/-- A browser world in which the Razorpay script never loaded and no
widget was constructed and no network call was issued yet. -/
def worldNoRazorpay : PaymentWorld :=
  { razorpayLoaded := false, constructed := 0, opened := 0, networkCalls := 0 }

/-! ## Helper lemmas about the cache model -/

theorem lookup_delete_self (key : String) (c : Cache) :
    cacheLookup key (cacheDelete key c) = none := by
  induction c with
  | nil => rfl
  | cons kv rest ih =>
    obtain ⟨k1, v1⟩ := kv
    simp only [cacheDelete, List.filter_cons] at *
    by_cases h : k1 = key
    · simpa [h] using ih
    · simpa [cacheLookup, h] using ih

theorem lookup_delete_ne (k key : String) (c : Cache) (h : k ≠ key) :
    cacheLookup k (cacheDelete key c) = cacheLookup k c := by
  induction c with
  | nil => rfl
  | cons kv rest ih =>
    obtain ⟨k1, v1⟩ := kv
    simp only [cacheDelete, List.filter_cons] at *
    by_cases hk : k1 = key
    · simp [hk, cacheLookup, h, Ne.symm h, ih]
    · by_cases hkk : k1 = k
      · simp [hk, hkk, cacheLookup, h, ih]
      · simp [hk, cacheLookup, hkk, ih]

theorem lookup_rawset_self (key : String) (item : CacheItem) (c : Cache) :
    cacheLookup key (cacheRawSet key item c) = some item := by
  induction c with
  | nil => simp [cacheRawSet, cacheLookup]
  | cons kv rest ih =>
    obtain ⟨k1, v1⟩ := kv
    by_cases h : k1 = key
    · simp [cacheRawSet, h, cacheLookup]
    · simp [cacheRawSet, h, cacheLookup, ih]

theorem lookup_mem_keys (k : String) (c : Cache) (item : CacheItem)
    (h : cacheLookup k c = some item) : k ∈ cacheKeys c := by
  induction c with
  | nil => simp [cacheLookup] at h
  | cons kv rest ih =>
    obtain ⟨k1, v1⟩ := kv
    by_cases hk : k1 = k
    · simp [cacheKeys, hk]
    · simp only [cacheLookup, hk, if_false] at h
      simp only [cacheKeys, List.map_cons]
      exact List.mem_cons_of_mem _ (ih h)

theorem lookup_foldl_delete (q : String → Bool) (L : List String) (c : Cache) (key : String) :
    cacheLookup key (L.foldl (fun c k => if q k then cacheDelete k c else c) c) =
      if key ∈ L ∧ q key = true then none else cacheLookup key c := by
  induction L generalizing c with
  | nil => simp
  | cons a L ih =>
    simp only [List.foldl_cons]
    rw [ih]
    by_cases hqa : q a = true
    · simp only [if_pos hqa]
      by_cases hak : key = a
      · subst hak
        rcases Decidable.em (key ∈ L) with hin | hin
        · simp [hin, hqa, lookup_delete_self]
        · simp [hin, hqa, lookup_delete_self]
      · rw [lookup_delete_ne key a c hak]
        simp [List.mem_cons, hak]
    · simp only [if_neg hqa]
      by_cases hqk : q key = true
      · by_cases hak : key = a
        · subst hak
          exact absurd hqk hqa
        · simp [List.mem_cons, hak]
      · simp [hqk]

theorem lookup_deleteMatching (q : String → Bool) (c : Cache) (key : String) :
    cacheLookup key (deleteMatching q c) =
      if q key = true then none else cacheLookup key c := by
  unfold deleteMatching
  rw [lookup_foldl_delete]
  by_cases hq : q key = true
  · rw [if_pos hq]
    by_cases hin : key ∈ cacheKeys c
    · rw [if_pos ⟨hin, hq⟩]
    · rw [if_neg (fun h => hin h.1)]
      cases hl : cacheLookup key c with
      | none => rfl
      | some item => exact absurd (lookup_mem_keys key c item hl) hin
  · rw [if_neg hq, if_neg (fun h => hq h.2)]

/-- Two sequential `withCache` calls on a key with no prior entry, the
second starting inside the TTL window of the first's write: the first
call invokes the fetcher and stores its (truthy) result, the second is
served from the cache. -/
theorem withCache_sequential (key : String) (fetch1 fetch2 : JsVal) (ttl : Int)
    (cache0 : Cache) (t1g t1s t2g t2s : Int)
    (h0 : cacheLookup key cache0 = none)
    (htruthy : truthy fetch1 = true)
    (hwin : ¬ t2g - t1s > ttl) :
    (withCache key fetch1 ttl t1g t1s cache0).fetched = true ∧
    (withCache key fetch2 ttl t2g t2s (withCache key fetch1 ttl t1g t1s cache0).cache).fetched
      = false ∧
    (withCache key fetch2 ttl t2g t2s (withCache key fetch1 ttl t1g t1s cache0).cache).value
      = fetch1 := by
  have h1 : withCache key fetch1 ttl t1g t1s cache0 =
      { value := fetch1, cache := cacheSet key fetch1 ttl t1s cache0, fetched := true } := by
    simp [withCache, cacheGet, h0]
  have hl : cacheLookup key (cacheSet key fetch1 ttl t1s cache0) =
      some { data := fetch1, timestamp := t1s, ttl := ttl } :=
    lookup_rawset_self key _ cache0
  have h2 : withCache key fetch2 ttl t2g t2s (cacheSet key fetch1 ttl t1s cache0) =
      { value := fetch1, cache := cacheSet key fetch1 ttl t1s cache0, fetched := false } := by
    simp [withCache, cacheGet, hl, hwin, htruthy]
  rw [h1]
  exact ⟨rfl, by rw [h2], by rw [h2]⟩

/-! ## Helper lemmas about the request engine -/

theorem requestLoop_retry_step (t : Nat → FetchOutcome) (mr rc fuel : Nat)
    (status : Nat) (b : Except Thrown JsVal)
    (ht : t rc = .response status b)
    (hA : ¬(200 ≤ status ∧ status < 300))
    (hB : ¬(400 ≤ status ∧ status < 500))
    (hmr : rc ≠ mr) :
    requestLoop t mr rc (fuel + 1) =
      { envelope := (requestLoop t mr (rc + 1) fuel).envelope
        attempts := (requestLoop t mr (rc + 1) fuel).attempts + 1
        delays := waitTime rc :: (requestLoop t mr (rc + 1) fuel).delays } := by
  simp only [requestLoop, ht]
  rw [if_neg hA, if_neg hB, if_neg hmr]

theorem jsFieldEx_of_ne_null (v : JsVal) (name : String) (h : v ≠ .vNull) :
    jsFieldEx v name = .ok (jsField v name) := by
  cases v <;> simp [jsFieldEx] at h ⊢

theorem successEnvelopeEx_of_ne_null (body : JsVal) (h : body ≠ .vNull) :
    successEnvelopeEx body = .ok (successEnvelope body) := by
  simp [successEnvelopeEx, jsFieldEx_of_ne_null body _ h, successEnvelope]

theorem failureEnvelopeEx_of_ne_null (body : JsVal) (fallback : String) (h : body ≠ .vNull) :
    failureEnvelopeEx body fallback = .ok (failureEnvelope body fallback) := by
  simp [failureEnvelopeEx, jsFieldEx_of_ne_null body _ h, failureEnvelope]

theorem successEnvelopeEx_success (body : JsVal) (env : ApiResponse)
    (h : successEnvelopeEx body = .ok env) : env.success = true := by
  by_cases hb : body = .vNull
  · subst hb
    simp [successEnvelopeEx, jsFieldEx] at h
  · rw [successEnvelopeEx_of_ne_null body hb] at h
    rw [← Except.ok.inj h]
    rfl

theorem requestLoop_success_step (t : Nat → FetchOutcome) (mr rc fuel : Nat)
    (status : Nat) (body : JsVal) (env : ApiResponse)
    (ht : t rc = .response status (.ok body))
    (hA : 200 ≤ status ∧ status < 300)
    (hE : successEnvelopeEx body = .ok env) :
    requestLoop t mr rc (fuel + 1) =
      { envelope := env, attempts := 1, delays := [] } := by
  simp only [requestLoop, ht, hE]
  rw [if_pos hA]

theorem requestLoop_success_throw_final (t : Nat → FetchOutcome) (mr rc fuel : Nat)
    (status : Nat) (body : JsVal) (th : Thrown)
    (ht : t rc = .response status (.ok body))
    (hA : 200 ≤ status ∧ status < 300)
    (hE : successEnvelopeEx body = .error th)
    (hmr : rc = mr) :
    requestLoop t mr rc (fuel + 1) =
      { envelope := catchEnvelope th, attempts := 1, delays := [] } := by
  subst hmr
  simp [requestLoop, ht, hE, hA]

theorem requestLoop_success_throw_retry (t : Nat → FetchOutcome) (mr rc fuel : Nat)
    (status : Nat) (body : JsVal) (th : Thrown)
    (ht : t rc = .response status (.ok body))
    (hA : 200 ≤ status ∧ status < 300)
    (hE : successEnvelopeEx body = .error th)
    (hmr : rc ≠ mr) :
    requestLoop t mr rc (fuel + 1) =
      { envelope := (requestLoop t mr (rc + 1) fuel).envelope
        attempts := (requestLoop t mr (rc + 1) fuel).attempts + 1
        delays := waitTime rc :: (requestLoop t mr (rc + 1) fuel).delays } := by
  simp [requestLoop, ht, hE, hA, hmr]

theorem requestLoop_4xx_step (t : Nat → FetchOutcome) (mr rc fuel : Nat)
    (status : Nat) (b : Except Thrown JsVal) (env : ApiResponse)
    (ht : t rc = .response status b)
    (hB : 400 ≤ status ∧ status < 500)
    (hE : failureEnvelopeEx (clientErrorBody b)
        ("Request failed with status " ++ toString status) = .ok env) :
    requestLoop t mr rc (fuel + 1) =
      { envelope := env, attempts := 1, delays := [] } := by
  have hA : ¬(200 ≤ status ∧ status < 300) := by omega
  simp only [requestLoop, ht, hE]
  rw [if_neg hA, if_pos hB]

theorem requestLoop_4xx_throw_final (t : Nat → FetchOutcome) (mr rc fuel : Nat)
    (status : Nat) (b : Except Thrown JsVal) (th : Thrown)
    (ht : t rc = .response status b)
    (hB : 400 ≤ status ∧ status < 500)
    (hE : failureEnvelopeEx (clientErrorBody b)
        ("Request failed with status " ++ toString status) = .error th)
    (hmr : rc = mr) :
    requestLoop t mr rc (fuel + 1) =
      { envelope := catchEnvelope th, attempts := 1, delays := [] } := by
  have hA : ¬(200 ≤ status ∧ status < 300) := by omega
  subst hmr
  simp [requestLoop, ht, hE, hA, hB]

theorem requestLoop_4xx_throw_retry (t : Nat → FetchOutcome) (mr rc fuel : Nat)
    (status : Nat) (b : Except Thrown JsVal) (th : Thrown)
    (ht : t rc = .response status b)
    (hB : 400 ≤ status ∧ status < 500)
    (hE : failureEnvelopeEx (clientErrorBody b)
        ("Request failed with status " ++ toString status) = .error th)
    (hmr : rc ≠ mr) :
    requestLoop t mr rc (fuel + 1) =
      { envelope := (requestLoop t mr (rc + 1) fuel).envelope
        attempts := (requestLoop t mr (rc + 1) fuel).attempts + 1
        delays := waitTime rc :: (requestLoop t mr (rc + 1) fuel).delays } := by
  have hA : ¬(200 ≤ status ∧ status < 300) := by omega
  simp [requestLoop, ht, hE, hA, hB, hmr]

theorem requestLoop_attempts_le (t : Nat → FetchOutcome) (mr : Nat) :
    ∀ fuel rc, (requestLoop t mr rc fuel).attempts ≤ fuel
  | 0, _ => Nat.le_refl 0
  | fuel + 1, rc => by
    have hstep := requestLoop_attempts_le t mr fuel (rc + 1)
    simp only [requestLoop]
    repeat' split
    all_goals (simp; try omega)

/-! ## Helper lemmas about error strings -/

theorem append_ne_empty_left (a b : String) (ha : a ≠ "") : a ++ b ≠ "" := by
  intro h
  have hd : a.data ++ b.data = [] := congrArg String.data h
  rw [List.append_eq_nil] at hd
  exact ha (by cases a; simp_all)

theorem connectionErrorMessage_ne_empty (t : Thrown) : connectionErrorMessage t ≠ "" := by
  cases t with
  | nonError => simp [connectionErrorMessage]
  | err name message =>
    simp only [connectionErrorMessage]
    split_ifs <;> first
      | exact append_ne_empty_left _ _ (append_ne_empty_left _ _ (by simp))
      | simp

theorem truthy_vStr_ne (s : String) (h : truthy (.vStr s) = true) : s ≠ "" := by
  simpa [truthy] using h

theorem jsOrElse_string (v : Option JsVal) (hv : stringish v) (d : String) (hd : d ≠ "") :
    ∃ s, jsOrElse v (.vStr d) = .vStr s ∧ s ≠ "" := by
  cases hvv : v with
  | none => exact ⟨d, by simp [jsOrElse], hd⟩
  | some x =>
    by_cases ht : truthy x = true
    · obtain ⟨s, rfl⟩ := hv x hvv ht
      exact ⟨s, by simp [jsOrElse, ht], truthy_vStr_ne s ht⟩
    · exact ⟨d, by simp [jsOrElse, ht], hd⟩

theorem failureEnvelope_error_string (body : JsVal) (fallback : String)
    (hm : stringish (jsField body "message")) (he : stringish (jsField body "error"))
    (hf : fallback ≠ "") :
    ∃ s, (failureEnvelope body fallback).error = some (.vStr s) ∧ s ≠ "" := by
  have key : ∃ s, jsOrElse (jsField body "message")
      (jsOrElse (jsField body "error") (.vStr fallback)) = .vStr s ∧ s ≠ "" := by
    obtain ⟨s2, he2, hne2⟩ := jsOrElse_string (jsField body "error") he fallback hf
    cases hmv : jsField body "message" with
    | none => exact ⟨s2, by simpa [jsOrElse] using he2, hne2⟩
    | some x =>
      by_cases ht : truthy x = true
      · obtain ⟨s, rfl⟩ := hm x hmv ht
        exact ⟨s, by simp [jsOrElse, ht], truthy_vStr_ne s ht⟩
      · exact ⟨s2, by simpa [jsOrElse, ht] using he2, hne2⟩
  obtain ⟨s, hs, hns⟩ := key
  refine ⟨s, ?_, hns⟩
  simp only [failureEnvelope]
  rw [hs]

theorem failureEnvelopeEx_error_string (body : JsVal) (fallback : String) (env : ApiResponse)
    (h : failureEnvelopeEx body fallback = .ok env)
    (hm : stringish (jsField body "message")) (he : stringish (jsField body "error"))
    (hf : fallback ≠ "") :
    ∃ s, env.error = some (.vStr s) ∧ s ≠ "" := by
  by_cases hb : body = .vNull
  · subst hb
    simp [failureEnvelopeEx, jsFieldEx] at h
  · rw [failureEnvelopeEx_of_ne_null body fallback hb] at h
    rw [← Except.ok.inj h]
    exact failureEnvelope_error_string body fallback hm he hf

theorem clientErrorBody_stringish (b : Except Thrown JsVal) (t : Nat → FetchOutcome)
    (n status : Nat) (hg : goodBodies t) (ht : t n = .response status b) :
    stringish (jsField (clientErrorBody b) "message") ∧
    stringish (jsField (clientErrorBody b) "error") := by
  cases b with
  | ok body => exact hg n status (.ok body) body ht rfl
  | error th =>
    constructor
    · intro x hx htr
      simp [clientErrorBody, jsField, List.lookup] at hx
      exact ⟨"Client error", hx.symm⟩
    · intro x hx htr
      simp [clientErrorBody, jsField, List.lookup] at hx

theorem requestLoop_decodefail_final (t : Nat → FetchOutcome) (mr rc fuel : Nat)
    (status : Nat) (th : Thrown)
    (ht : t rc = .response status (.error th))
    (hA : 200 ≤ status ∧ status < 300)
    (hmr : rc = mr) :
    requestLoop t mr rc (fuel + 1) =
      { envelope := catchEnvelope th, attempts := 1, delays := [] } := by
  subst hmr
  simp [requestLoop, ht, hA]

theorem requestLoop_decodefail_retry (t : Nat → FetchOutcome) (mr rc fuel : Nat)
    (status : Nat) (th : Thrown)
    (ht : t rc = .response status (.error th))
    (hA : 200 ≤ status ∧ status < 300)
    (hmr : rc ≠ mr) :
    requestLoop t mr rc (fuel + 1) =
      { envelope := (requestLoop t mr (rc + 1) fuel).envelope
        attempts := (requestLoop t mr (rc + 1) fuel).attempts + 1
        delays := waitTime rc :: (requestLoop t mr (rc + 1) fuel).delays } := by
  simp [requestLoop, ht, hA, hmr]

theorem requestLoop_5xx_final (t : Nat → FetchOutcome) (mr rc fuel : Nat)
    (status : Nat) (b : Except Thrown JsVal) (env : ApiResponse)
    (ht : t rc = .response status b)
    (hA : ¬(200 ≤ status ∧ status < 300))
    (hB : ¬(400 ≤ status ∧ status < 500))
    (hE : failureEnvelopeEx (serverErrorBody b)
        ("Server error (" ++ toString status ++ "). Please try again later.") = .ok env)
    (hmr : rc = mr) :
    requestLoop t mr rc (fuel + 1) =
      { envelope := env, attempts := 1, delays := [] } := by
  subst hmr
  simp [requestLoop, ht, hE, hA, hB]

theorem requestLoop_5xx_throw_final (t : Nat → FetchOutcome) (mr rc fuel : Nat)
    (status : Nat) (b : Except Thrown JsVal) (th : Thrown)
    (ht : t rc = .response status b)
    (hA : ¬(200 ≤ status ∧ status < 300))
    (hB : ¬(400 ≤ status ∧ status < 500))
    (hE : failureEnvelopeEx (serverErrorBody b)
        ("Server error (" ++ toString status ++ "). Please try again later.") = .error th)
    (hmr : rc = mr) :
    requestLoop t mr rc (fuel + 1) =
      { envelope := catchEnvelope th, attempts := 1, delays := [] } := by
  subst hmr
  simp [requestLoop, ht, hE, hA, hB]

theorem requestLoop_reject_final (t : Nat → FetchOutcome) (mr rc fuel : Nat) (th : Thrown)
    (ht : t rc = .reject th) (hmr : rc = mr) :
    requestLoop t mr rc (fuel + 1) =
      { envelope := catchEnvelope th, attempts := 1, delays := [] } := by
  subst hmr
  simp [requestLoop, ht]

theorem requestLoop_reject_retry (t : Nat → FetchOutcome) (mr rc fuel : Nat) (th : Thrown)
    (ht : t rc = .reject th) (hmr : rc ≠ mr) :
    requestLoop t mr rc (fuel + 1) =
      { envelope := (requestLoop t mr (rc + 1) fuel).envelope
        attempts := (requestLoop t mr (rc + 1) fuel).attempts + 1
        delays := waitTime rc :: (requestLoop t mr (rc + 1) fuel).delays } := by
  simp [requestLoop, ht, hmr]

theorem serverErrorBody_stringish (b : Except Thrown JsVal) (t : Nat → FetchOutcome)
    (n status : Nat) (hg : goodBodies t) (ht : t n = .response status b) :
    stringish (jsField (serverErrorBody b) "message") ∧
    stringish (jsField (serverErrorBody b) "error") := by
  cases b with
  | ok body => exact hg n status (.ok body) body ht rfl
  | error th =>
    constructor
    · intro x hx htr
      simp [serverErrorBody, jsField, List.lookup] at hx
      exact ⟨"Server error", hx.symm⟩
    · intro x hx htr
      simp [serverErrorBody, jsField, List.lookup] at hx

theorem requestLoop_failure_error (t : Nat → FetchOutcome) (mr : Nat) (hg : goodBodies t) :
    ∀ fuel rc, (requestLoop t mr rc fuel).envelope.success = false →
      ∃ s, (requestLoop t mr rc fuel).envelope.error = some (.vStr s) ∧ s ≠ ""
  | 0, _ => fun _ =>
      ⟨"Maximum retry attempts exceeded. Please try again later.", rfl, by simp⟩
  | fuel + 1, rc => by
    have ih := requestLoop_failure_error t mr hg fuel (rc + 1)
    intro hs
    cases ht : t rc with
    | response status b =>
      by_cases hA : 200 ≤ status ∧ status < 300
      · cases b with
        | ok body =>
          cases hse : successEnvelopeEx body with
          | ok env =>
            rw [requestLoop_success_step t mr rc fuel status body env ht hA hse] at hs
            rw [successEnvelopeEx_success body env hse] at hs
            simp at hs
          | error th =>
            by_cases hmr : rc = mr
            · rw [requestLoop_success_throw_final t mr rc fuel status body th ht hA hse hmr]
              exact ⟨connectionErrorMessage th, rfl, connectionErrorMessage_ne_empty th⟩
            · rw [requestLoop_success_throw_retry t mr rc fuel status body th ht hA hse hmr]
                at hs ⊢
              exact ih hs
        | error th =>
          by_cases hmr : rc = mr
          · rw [requestLoop_decodefail_final t mr rc fuel status th ht hA hmr]
            exact ⟨connectionErrorMessage th, rfl, connectionErrorMessage_ne_empty th⟩
          · rw [requestLoop_decodefail_retry t mr rc fuel status th ht hA hmr] at hs ⊢
            exact ih hs
      · by_cases hB : 400 ≤ status ∧ status < 500
        · cases hfe : failureEnvelopeEx (clientErrorBody b)
              ("Request failed with status " ++ toString status) with
          | ok env =>
            rw [requestLoop_4xx_step t mr rc fuel status b env ht hB hfe]
            have hstr := clientErrorBody_stringish b t rc status hg ht
            exact failureEnvelopeEx_error_string _ _ env hfe hstr.1 hstr.2
              (append_ne_empty_left _ _ (by simp))
          | error th =>
            by_cases hmr : rc = mr
            · rw [requestLoop_4xx_throw_final t mr rc fuel status b th ht hB hfe hmr]
              exact ⟨connectionErrorMessage th, rfl, connectionErrorMessage_ne_empty th⟩
            · rw [requestLoop_4xx_throw_retry t mr rc fuel status b th ht hB hfe hmr] at hs ⊢
              exact ih hs
        · by_cases hmr : rc = mr
          · cases hfe : failureEnvelopeEx (serverErrorBody b)
                ("Server error (" ++ toString status ++ "). Please try again later.") with
            | ok env =>
              rw [requestLoop_5xx_final t mr rc fuel status b env ht hA hB hfe hmr]
              have hstr := serverErrorBody_stringish b t rc status hg ht
              exact failureEnvelopeEx_error_string _ _ env hfe hstr.1 hstr.2
                (append_ne_empty_left _ _ (append_ne_empty_left _ _ (by simp)))
            | error th =>
              rw [requestLoop_5xx_throw_final t mr rc fuel status b th ht hA hB hfe hmr]
              exact ⟨connectionErrorMessage th, rfl, connectionErrorMessage_ne_empty th⟩
          · rw [requestLoop_retry_step t mr rc fuel status b ht hA hB hmr] at hs ⊢
            exact ih hs
    | reject th =>
      by_cases hmr : rc = mr
      · rw [requestLoop_reject_final t mr rc fuel th ht hmr]
        exact ⟨connectionErrorMessage th, rfl, connectionErrorMessage_ne_empty th⟩
      · rw [requestLoop_reject_retry t mr rc fuel th ht hmr] at hs ⊢
        exact ih hs

/-! ## Claim theorems -/

/-- Claim C4: for every cache key and cache state, `get(key)` returns
`null` whenever `now - timestamp > ttl` holds for that key's entry,
deleting the entry as a side effect, no matter how many times `get` is
called; and neither `get` nor `has` ever observes an expired entry as
present. -/
theorem cacheGet_expired_null (cache : Cache) (now : Int) (key : String) :
    (∀ item, cacheLookup key cache = some item → now - item.timestamp > item.ttl →
        (cacheGet cache now key).1 = none ∧
        cacheLookup key (cacheGet cache now key).2 = none ∧
        (cacheHas cache now key).1 = false ∧
        (cacheGet (cacheGet cache now key).2 now key).1 = none) ∧
    (∀ v, (cacheGet cache now key).1 = some v →
        ∃ item, cacheLookup key cache = some item ∧ v = item.data ∧
          ¬ now - item.timestamp > item.ttl) ∧
    ((cacheHas cache now key).1 = true →
        ∃ item, cacheLookup key cache = some item ∧ ¬ now - item.timestamp > item.ttl) := by
  refine ⟨?_, ?_, ?_⟩
  · intro item hl hexp
    refine ⟨?_, ?_, ?_, ?_⟩ <;> simp [cacheGet, cacheHas, hl, hexp, lookup_delete_self]
  · intro v hv
    cases hl : cacheLookup key cache with
    | none => simp [cacheGet, hl] at hv
    | some item =>
      by_cases hexp : now - item.timestamp > item.ttl
      · simp [cacheGet, hl, hexp] at hv
      · simp [cacheGet, hl, hexp] at hv
        exact ⟨item, rfl, hv.symm, hexp⟩
  · intro hh
    cases hl : cacheLookup key cache with
    | none => simp [cacheHas, hl] at hh
    | some item =>
      by_cases hexp : now - item.timestamp > item.ttl
      · simp [cacheHas, hl, hexp] at hh
      · exact ⟨item, rfl, hexp⟩

/-- Witness for C4 at a concrete expired entry. -/
theorem cacheGet_expired_null_witness :
    (cacheGet cacheK5 10 "k").1 = none ∧
    cacheLookup "k" (cacheGet cacheK5 10 "k").2 = none ∧
    (cacheHas cacheK5 10 "k").1 = false ∧
    (cacheGet (cacheGet cacheK5 10 "k").2 10 "k").1 = none :=
  (cacheGet_expired_null cacheK5 10 "k").1
    { data := .vStr "v", timestamp := 0, ttl := 5 } rfl (by decide)

/-- Claim C6: `invalidateCachePattern(p)` deletes exactly the keys that
contain `p` as a substring; every other key keeps its entry unchanged. -/
theorem invalidateCachePattern_exact (pattern : String) (cache : Cache) (key : String) :
    (jsIncludes key pattern = true →
      cacheLookup key (invalidateCachePattern pattern cache) = none) ∧
    (jsIncludes key pattern = false →
      cacheLookup key (invalidateCachePattern pattern cache) = cacheLookup key cache) := by
  constructor
  · intro h
    rw [invalidateCachePattern, lookup_deleteMatching]
    simp [h]
  · intro h
    rw [invalidateCachePattern, lookup_deleteMatching]
    simp [h]

/-- Witness for C6 on a cache holding a bookings key and the categories key. -/
theorem invalidateCachePattern_exact_witness :
    cacheLookup "bookings_page=1"
        (invalidateCachePattern "bookings" cacheBookingsCategories) = none ∧
    cacheLookup "categories" (invalidateCachePattern "bookings" cacheBookingsCategories) =
      cacheLookup "categories" cacheBookingsCategories :=
  ⟨(invalidateCachePattern_exact "bookings" cacheBookingsCategories "bookings_page=1").1
      (by decide),
   (invalidateCachePattern_exact "bookings" cacheBookingsCategories "categories").2
      (by decide)⟩

/-- Counterexample to C7 as stated: an entry stored with TTL 0 is still
returned by `get` (and reported by `has`) when read in the same
millisecond as the set, because the expiry test `now - timestamp > ttl`
is strict and `0 > 0` is false. -/
theorem ttl_zero_same_millisecond_read :
    (cacheGet cacheKTtl0 5 "k").1 = some (.vStr "v") ∧
    (cacheHas cacheKTtl0 5 "k").1 = true :=
  ⟨rfl, rfl⟩

/-- Claim C7 (amended): an entry with TTL ≤ 0 is expired for every read
strictly after `timestamp + ttl`; in particular a negative TTL expires
the entry even for a read in the same millisecond as the set, while a
TTL of exactly 0 expires it for every read at least one millisecond
later. -/
theorem nonpositive_ttl_expired (cache : Cache) (now : Int) (key : String) (item : CacheItem)
    (hl : cacheLookup key cache = some item) (httl : item.ttl ≤ 0)
    (hnow : item.timestamp + item.ttl < now) :
    (cacheGet cache now key).1 = none ∧ (cacheHas cache now key).1 = false := by
  have hexp : now - item.timestamp > item.ttl := by omega
  constructor <;> simp [cacheGet, cacheHas, hl, hexp]

/-- Witness for the amended C7: a TTL of -1 expires the entry even in
the same millisecond as the set. -/
theorem nonpositive_ttl_expired_witness :
    (cacheGet cacheKTtlNeg 5 "k").1 = none ∧ (cacheHas cacheKTtlNeg 5 "k").1 = false :=
  nonpositive_ttl_expired cacheKTtlNeg 5 "k"
    { data := .vStr "v", timestamp := 5, ttl := -1 } rfl (by decide) (by decide)

/-- Claim C8: when `createBooking` resolves with `success:true`, every
cache key starting with the bookings prefix is removed, every other key
keeps its entry, and on `success:false` the cache is untouched. -/
theorem createBooking_invalidates_bookings_keys (result : ApiResponse) (cache : Cache)
    (key : String) :
    (result.success = true → jsStartsWith key CACHE_KEY_BOOKINGS = true →
      cacheLookup key (createBookingInvalidate result cache) = none) ∧
    (result.success = true → jsStartsWith key CACHE_KEY_BOOKINGS = false →
      cacheLookup key (createBookingInvalidate result cache) = cacheLookup key cache) ∧
    (result.success = false → createBookingInvalidate result cache = cache) := by
  refine ⟨?_, ?_, ?_⟩
  · intro hs hk
    simp only [createBookingInvalidate, hs, if_true]
    rw [lookup_deleteMatching]
    simp [hk]
  · intro hs hk
    have hne : key ≠ CACHE_KEY_BOOKINGS := by
      intro h
      rw [h] at hk
      exact absurd hk (by decide)
    simp only [createBookingInvalidate, hs, if_true]
    rw [lookup_deleteMatching]
    simp [hk, lookup_delete_ne key CACHE_KEY_BOOKINGS cache hne]
  · intro hs
    simp [createBookingInvalidate, hs]

/-- Witness for C8: a successful booking creation clears the bookings
list key and preserves the categories key; a failed one clears nothing. -/
theorem createBooking_invalidates_bookings_keys_witness :
    cacheLookup "bookings_page=1"
        (createBookingInvalidate okBookingEnvelope cacheBookingsCategories) = none ∧
    cacheLookup "categories"
        (createBookingInvalidate okBookingEnvelope cacheBookingsCategories) =
      cacheLookup "categories" cacheBookingsCategories ∧
    createBookingInvalidate failedEnvelope cacheBookingsCategories = cacheBookingsCategories :=
  ⟨(createBooking_invalidates_bookings_keys okBookingEnvelope cacheBookingsCategories
      "bookings_page=1").1 rfl (by decide),
   (createBooking_invalidates_bookings_keys okBookingEnvelope cacheBookingsCategories
      "categories").2.1 rfl (by decide),
   (createBooking_invalidates_bookings_keys failedEnvelope cacheBookingsCategories
      "bookings_page=1").2.2 rfl⟩

/-- Counterexample to C5 as stated: with a fetcher whose resolved value
is falsy (here the boolean `false`), two sequential `withCache` calls on
the same key within a positive TTL window invoke the fetcher twice — the
source's `if (cached)` is a truthiness test, so a cached falsy value is
treated as a miss. -/
theorem withCache_falsy_value_refetches :
    (0 : Int) < 1000 ∧ (1 : Int) - 0 ≤ 1000 ∧
    (withCache "k" (.vBool false) 1000 0 0 []).fetched = true ∧
    (withCache "k" (.vBool false) 1000 1 1
        (withCache "k" (.vBool false) 1000 0 0 []).cache).fetched = true :=
  ⟨by norm_num, by norm_num, rfl, rfl⟩

/-- Claim C5 (amended): for every key, positive TTL and fetcher whose
resolved value is truthy (as every object envelope is), two sequential
`withCache` calls within the TTL window starting from a cache with no
entry for the key invoke the fetcher exactly once: the second call is
served the first call's value from the cache. -/
theorem withCache_truthy_single_fetch (key : String) (fetch1 fetch2 : JsVal) (ttl : Int)
    (cache0 : Cache) (t1g t1s t2g t2s : Int)
    (h0 : cacheLookup key cache0 = none)
    (hpos : 0 < ttl)
    (htruthy : truthy fetch1 = true)
    (hwin : ¬ t2g - t1s > ttl) :
    (withCache key fetch1 ttl t1g t1s cache0).fetched = true ∧
    (withCache key fetch2 ttl t2g t2s (withCache key fetch1 ttl t1g t1s cache0).cache).fetched
      = false ∧
    (withCache key fetch2 ttl t2g t2s (withCache key fetch1 ttl t1g t1s cache0).cache).value
      = fetch1 :=
  withCache_sequential key fetch1 fetch2 ttl cache0 t1g t1s t2g t2s h0 htruthy hwin

/-- Witness for the amended C5 with a truthy (object) fetch result. -/
theorem withCache_truthy_single_fetch_witness :
    (withCache "k" (.vObj []) 1000 0 0 []).fetched = true ∧
    (withCache "k" (.vObj [("n", .vNum 2)]) 1000 1 1
        (withCache "k" (.vObj []) 1000 0 0 []).cache).fetched = false ∧
    (withCache "k" (.vObj [("n", .vNum 2)]) 1000 1 1
        (withCache "k" (.vObj []) 1000 0 0 []).cache).value = .vObj [] :=
  withCache_truthy_single_fetch "k" (.vObj []) (.vObj [("n", .vNum 2)]) 1000 [] 0 0 1 1
    rfl (by norm_num) rfl (by norm_num)

/-- Claim C9: when the `window.Razorpay` global is absent,
`initializeRazorpayPayment` fails with the "Payment system not loaded"
message and the browser world is unchanged — no widget is constructed or
opened and the network-call counter keeps its value. -/
theorem razorpay_absent_fails_before_network (w : PaymentWorld) (constructThrows : Bool)
    (h : w.razorpayLoaded = false) :
    initializeRazorpayPayment w constructThrows =
      ((false, some "Payment system not loaded. Please refresh the page and try again."), w) ∧
    jsStartsWith "Payment system not loaded. Please refresh the page and try again."
      "Payment system not loaded" = true ∧
    (initializeRazorpayPayment w constructThrows).2.constructed = w.constructed ∧
    (initializeRazorpayPayment w constructThrows).2.opened = w.opened ∧
    (initializeRazorpayPayment w constructThrows).2.networkCalls = w.networkCalls := by
  have he : initializeRazorpayPayment w constructThrows =
      ((false, some "Payment system not loaded. Please refresh the page and try again."), w) := by
    simp [initializeRazorpayPayment, validateRazorpaySetup, h]
  refine ⟨he, by decide, ?_, ?_, ?_⟩ <;> rw [he]

/-- Witness for C9 in a world where the script never loaded and every
counter is zero. -/
theorem razorpay_absent_fails_before_network_witness :
    initializeRazorpayPayment worldNoRazorpay false =
      ((false, some "Payment system not loaded. Please refresh the page and try again."),
        worldNoRazorpay) ∧
    jsStartsWith "Payment system not loaded. Please refresh the page and try again."
      "Payment system not loaded" = true ∧
    (initializeRazorpayPayment worldNoRazorpay false).2.constructed =
      worldNoRazorpay.constructed ∧
    (initializeRazorpayPayment worldNoRazorpay false).2.opened = worldNoRazorpay.opened ∧
    (initializeRazorpayPayment worldNoRazorpay false).2.networkCalls =
      worldNoRazorpay.networkCalls :=
  razorpay_absent_fails_before_network worldNoRazorpay false rfl

/-- Claim C10: `withCache` stores whatever the fetcher resolves to,
failure envelopes included: when the underlying `/categories` request
resolves with `success:false`, the envelope (an object, hence truthy) is
cached, and a second `getCategories` call within the 15-minute TTL is
served that same failure envelope without invoking the fetcher again. -/
theorem getCategories_caches_failure_envelope (env env2 : ApiResponse) (cache0 : Cache)
    (t1g t1s t2g t2s : Int)
    (henv : env.success = false)
    (h0 : cacheLookup CACHE_KEY_CATEGORIES cache0 = none)
    (hwin : ¬ t2g - t1s > CACHE_TTL_LONG) :
    (getCategories env t1g t1s cache0).fetched = true ∧
    (getCategories env2 t2g t2s (getCategories env t1g t1s cache0).cache).fetched = false ∧
    (getCategories env2 t2g t2s (getCategories env t1g t1s cache0).cache).value
      = envelopeToJs env ∧
    jsField (envelopeToJs env) "success" = some (.vBool false) := by
  have h := withCache_sequential CACHE_KEY_CATEGORIES (envelopeToJs env) (envelopeToJs env2)
    CACHE_TTL_LONG cache0 t1g t1s t2g t2s h0 rfl hwin
  exact ⟨h.1, h.2.1, h.2.2, by simp [envelopeToJs, jsField, List.lookup, henv]⟩

/-- Witness for C10 with a concrete failed envelope and an empty cache. -/
theorem getCategories_caches_failure_envelope_witness :
    (getCategories failedEnvelope 0 0 []).fetched = true ∧
    (getCategories okBookingEnvelope 1 1 (getCategories failedEnvelope 0 0 []).cache).fetched
      = false ∧
    (getCategories okBookingEnvelope 1 1 (getCategories failedEnvelope 0 0 []).cache).value
      = envelopeToJs failedEnvelope ∧
    jsField (envelopeToJs failedEnvelope) "success" = some (.vBool false) :=
  getCategories_caches_failure_envelope failedEnvelope okBookingEnvelope [] 0 0 1 1
    rfl rfl (by norm_num [CACHE_TTL_LONG])

/-- Counterexample to C1 as stated: a transport answering 500, 500,
then HTTP 200 with the JSON body `null` on every later attempt does NOT
resolve `success:true` after 3 attempts — on the third attempt the
source throws a `TypeError` at `data.data`, the catch block retries,
and the call ends `success:false` after 4 attempts with a third backoff
of 4000 ms. -/
theorem request_200_null_body_counterexample :
    mockNullBody200 0 = .response 500 (.ok (.vObj [])) ∧
    mockNullBody200 1 = .response 500 (.ok (.vObj [])) ∧
    mockNullBody200 2 = .response 200 (.ok .vNull) ∧
    (request mockNullBody200).attempts = 4 ∧
    (request mockNullBody200).envelope.success = false ∧
    (request mockNullBody200).delays = [1000, 2000, 4000] :=
  ⟨rfl, rfl, rfl, rfl, rfl, rfl⟩

/-- Claim C1 (amended): with a transport answering HTTP 500 on the first
two attempts and HTTP 200 on the third with a JSON body that is not
`null` (so the `data.data` unwrap does not throw), `request()` resolves
`success:true` after exactly 3 attempts; the backoff slept before each
retry is `min(1000·2^attempt, 10000)` ms, concretely `[1000, 2000]`, a
monotonically non-decreasing sequence; the retry budget is fixed at 3
retries, so every call makes at most 4 attempts. -/
theorem request_retries_5xx_then_succeeds (transport : Nat → FetchOutcome)
    (b0 b1 : Except Thrown JsVal) (body : JsVal)
    (h0 : transport 0 = .response 500 b0)
    (h1 : transport 1 = .response 500 b1)
    (h2 : transport 2 = .response 200 (.ok body))
    (hbody : body ≠ .vNull) :
    (request transport).envelope.success = true ∧
    (request transport).attempts = 3 ∧
    (request transport).delays = [min (1000 * 2 ^ 0) 10000, min (1000 * 2 ^ 1) 10000] ∧
    (request transport).delays = [1000, 2000] ∧
    List.Chain' (fun a b => a ≤ b) (request transport).delays ∧
    maxRetries = 3 ∧
    (∀ t2 : Nat → FetchOutcome, (request t2).attempts ≤ maxRetries + 1) := by
  have e1 : requestLoop transport 3 0 4 =
      { envelope := (requestLoop transport 3 1 3).envelope
        attempts := (requestLoop transport 3 1 3).attempts + 1
        delays := waitTime 0 :: (requestLoop transport 3 1 3).delays } :=
    requestLoop_retry_step transport 3 0 3 500 b0 h0 (by omega) (by omega) (by omega)
  have e2 : requestLoop transport 3 1 3 =
      { envelope := (requestLoop transport 3 2 2).envelope
        attempts := (requestLoop transport 3 2 2).attempts + 1
        delays := waitTime 1 :: (requestLoop transport 3 2 2).delays } :=
    requestLoop_retry_step transport 3 1 2 500 b1 h1 (by omega) (by omega) (by omega)
  have e3 : requestLoop transport 3 2 2 =
      { envelope := successEnvelope body, attempts := 1, delays := [] } :=
    requestLoop_success_step transport 3 2 1 200 body (successEnvelope body) h2 (by omega)
      (successEnvelopeEx_of_ne_null body hbody)
  have e : request transport =
      { envelope := successEnvelope body, attempts := 3, delays := [waitTime 0, waitTime 1] } := by
    show requestLoop transport 3 0 4 = _
    rw [e1, e2, e3]
  refine ⟨by rw [e]; try rfl, by rw [e]; try rfl, by rw [e]; try rfl, by rw [e]; try rfl, ?_, rfl, ?_⟩
  · rw [e]
    simp [waitTime]
  · intro t2
    exact requestLoop_attempts_le t2 maxRetries (maxRetries + 1) 0

/-- Witness for C1 at the concrete 500-500-200 mock transport. -/
theorem request_retries_5xx_then_succeeds_witness :
    (request mock500x2Then200).envelope.success = true ∧
    (request mock500x2Then200).attempts = 3 ∧
    (request mock500x2Then200).delays = [min (1000 * 2 ^ 0) 10000, min (1000 * 2 ^ 1) 10000] ∧
    (request mock500x2Then200).delays = [1000, 2000] ∧
    List.Chain' (fun a b => a ≤ b) (request mock500x2Then200).delays ∧
    maxRetries = 3 ∧
    (∀ t2 : Nat → FetchOutcome, (request t2).attempts ≤ maxRetries + 1) :=
  request_retries_5xx_then_succeeds mock500x2Then200 (.ok (.vObj [])) (.ok (.vObj []))
    (.vObj [("data", .vObj [("ok", .vBool true)])]) rfl rfl rfl (by simp)

/-- Counterexample to C2 as stated: a 404 whose JSON body is `null` is
NOT terminal — the source throws a `TypeError` at `data.message` inside
the try block, the catch retries the 4xx, and the call ends only after
4 attempts with three backoffs slept. -/
theorem request_4xx_null_body_counterexample :
    mock404Null 0 = .response 404 (.ok .vNull) ∧
    (request mock404Null).attempts = 4 ∧
    (request mock404Null).delays = [1000, 2000, 4000] ∧
    (request mock404Null).envelope.success = false :=
  ⟨rfl, rfl, rfl, rfl⟩

/-- Claim C2 (amended): a 4xx response on the first attempt whose
decoded body (or decode-failure fallback object) is not JSON `null` is
terminal — for any such 4xx status and any retry budget, `request()`
resolves `success:false` after exactly 1 attempt, with no backoff
slept.  (A 4xx body of exactly `null` instead throws at `data.message`
and is retried by the catch block.) -/
theorem request_4xx_terminal_single_attempt (transport : Nat → FetchOutcome) (mr : Nat)
    (status : Nat) (b : Except Thrown JsVal)
    (h0 : transport 0 = .response status b)
    (h4 : 400 ≤ status) (h5 : status < 500)
    (hnull : clientErrorBody b ≠ .vNull) :
    (requestLoop transport mr 0 (mr + 1)).envelope.success = false ∧
    (requestLoop transport mr 0 (mr + 1)).attempts = 1 ∧
    (requestLoop transport mr 0 (mr + 1)).delays = [] ∧
    (request transport).envelope.success = false ∧
    (request transport).attempts = 1 := by
  have e : ∀ m f : Nat, requestLoop transport m 0 (f + 1) =
      { envelope := failureEnvelope (clientErrorBody b)
          ("Request failed with status " ++ toString status)
        attempts := 1, delays := [] } := fun m f =>
    requestLoop_4xx_step transport m 0 f status b
      (failureEnvelope (clientErrorBody b) ("Request failed with status " ++ toString status))
      h0 ⟨h4, h5⟩ (failureEnvelopeEx_of_ne_null _ _ hnull)
  have e1 := e mr mr
  have e2 : request transport =
      { envelope := failureEnvelope (clientErrorBody b)
          ("Request failed with status " ++ toString status)
        attempts := 1, delays := [] } := e 3 3
  exact ⟨by rw [e1]; try rfl, by rw [e1]; try rfl, by rw [e1]; try rfl, by rw [e2]; try rfl, by rw [e2]; try rfl⟩

/-- Witness for C2 at the concrete 404 mock transport with the default
retry budget. -/
theorem request_4xx_terminal_single_attempt_witness :
    (requestLoop mock404 3 0 (3 + 1)).envelope.success = false ∧
    (requestLoop mock404 3 0 (3 + 1)).attempts = 1 ∧
    (requestLoop mock404 3 0 (3 + 1)).delays = [] ∧
    (request mock404).envelope.success = false ∧
    (request mock404).attempts = 1 :=
  request_4xx_terminal_single_attempt mock404 3 404
    (.ok (.vObj [("message", .vStr "Not found")])) rfl (by norm_num) (by norm_num)
    (by simp [clientErrorBody])

/-- Counterexample to C3 as stated: a 404 whose JSON body carries the
truthy non-string `message` value `5` is copied verbatim into the
envelope's `error` field, which is then not a string at all — the
source computes `error: data.message || data.error || fallback` on an
untyped body. -/
theorem request_error_nonstring_counterexample :
    (request mock404NumericMessage).envelope.success = false ∧
    (request mock404NumericMessage).envelope.error = some (.vNum 5) ∧
    ∀ s : String, (request mock404NumericMessage).envelope.error ≠ some (.vStr s) := by
  have e : request mock404NumericMessage =
      { envelope := failureEnvelope (clientErrorBody (.ok (.vObj [("message", .vNum 5)])))
          ("Request failed with status " ++ toString 404)
        attempts := 1, delays := [] } :=
    requestLoop_4xx_step mock404NumericMessage 3 0 3 404 _
      (failureEnvelope (clientErrorBody (.ok (.vObj [("message", .vNum 5)])))
        ("Request failed with status " ++ toString 404))
      rfl (by norm_num) (failureEnvelopeEx_of_ne_null _ _ (by simp [clientErrorBody]))
  have h5 : (request mock404NumericMessage).envelope.error = some (.vNum 5) := by
    rw [e]; rfl
  refine ⟨by rw [e]; try rfl, h5, ?_⟩
  intro s hcontra
  rw [h5] at hcontra
  simp at hcontra

/-- Claim C3 (amended): `request` resolves for every transport behaviour
(2xx, 4xx, 5xx, rejection, abort, malformed JSON body — the model is a
total function), and whenever the bodies the transport produces carry
only string-valued (or absent/falsy) `message`/`error` fields, every
`success:false` envelope has a non-empty string in `error`. -/
theorem request_failure_error_nonempty_string (transport : Nat → FetchOutcome)
    (hg : goodBodies transport)
    (hs : (request transport).envelope.success = false) :
    ∃ s, (request transport).envelope.error = some (.vStr s) ∧ s ≠ "" :=
  requestLoop_failure_error transport maxRetries hg (maxRetries + 1) 0 hs

/-- Witness for the amended C3: a transport that always aborts yields a
failure envelope with a non-empty error string. -/
theorem request_failure_error_nonempty_string_witness :
    ∃ s, (request mockAlwaysAbort).envelope.error = some (.vStr s) ∧ s ≠ "" :=
  request_failure_error_nonempty_string mockAlwaysAbort
    (fun n status b body hn _ => absurd hn (by simp [mockAlwaysAbort]))
    rfl
